import Mathlib

set_option maxHeartbeats 1000000

/-!
A shallow embedding of the observation-sync route
(`src/services/worker/http/routes/SyncRoutes.ts`): JavaScript values,
`JSON.stringify`, the record conversion, and the request handler with its two
collaborators (the SQLite session store and the Chroma sync client) modelled as
oracles whose invocations are recorded in a trace.
-/

mutual
/-- A JavaScript value as it can appear in a request body or in a datastore
row: the JSON shapes plus `undefined`. -/
inductive JSVal where
  | undefined
  | null
  | bool (b : Bool)
  | num (n : Int)
  | str (s : String)
  | arr (xs : JSList)
  | obj (fs : JSFields)
deriving DecidableEq

/-- The elements of a JavaScript array, in order. -/
inductive JSList where
  | nil
  | cons (v : JSVal) (rest : JSList)
deriving DecidableEq

/-- The fields of a JavaScript object, in insertion order. -/
inductive JSFields where
  | nil
  | cons (k : String) (v : JSVal) (rest : JSFields)
deriving DecidableEq
end

/-- Embed a Lean list of values as a JavaScript array payload. -/
def JSList.ofList : List JSVal → JSList
  | [] => .nil
  | v :: rest => .cons v (JSList.ofList rest)

/-- JavaScript truthiness (`Boolean(v)`). `NaN` and `-0` do not arise because
numbers are modelled as integers. -/
def JSVal.truthy : JSVal → Bool
  | .undefined => false
  | .null => false
  | .bool b => b
  | .num n => n != 0
  | .str s => s != ""
  | .arr _ => true
  | .obj _ => true

/-- JavaScript `typeof v === 'string'`. -/
def JSVal.isString : JSVal → Bool
  | .str _ => true
  | _ => false

/-- JavaScript `Array.isArray(v)`. -/
def JSVal.isArray : JSVal → Bool
  | .arr _ => true
  | _ => false

/-- Length of a JavaScript array payload. -/
def JSList.length : JSList → Nat
  | .nil => 0
  | .cons _ rest => 1 + rest.length

/-- JavaScript `v.length` as consulted by the handler; only ever read on
arrays (the non-array case is short-circuited away by `Array.isArray`). -/
def JSVal.jsLength : JSVal → Nat
  | .arr xs => xs.length
  | _ => 0

/-- JavaScript `a || b`. -/
def jsOr (a b : JSVal) : JSVal := if a.truthy then a else b

/-- Look a key up among object fields, first match wins. -/
def JSFields.find : JSFields → String → JSVal
  | .nil, _ => .undefined
  | .cons k v rest, key => if k = key then v else rest.find key

/-- JavaScript property access `o[key]`: `undefined` when the key is absent or
the receiver is not an object. -/
def jsGet : JSVal → String → JSVal
  | .obj fs, key => fs.find key
  | _, _ => .undefined

/-- A lowercase hexadecimal digit. -/
def hexDigit (n : Nat) : Char :=
  if n < 10 then Char.ofNat (48 + n) else Char.ofNat (87 + n)

/-- How `JSON.stringify` escapes one character inside a string literal. -/
def escapeChar (c : Char) : String :=
  if c = '"' then "\\\""
  else if c = '\\' then "\\\\"
  else if c = '\x08' then "\\b"
  else if c = '\x0c' then "\\f"
  else if c = '\n' then "\\n"
  else if c = '\r' then "\\r"
  else if c = '\t' then "\\t"
  else if c.toNat < 32 then
    "\\u00" ++ String.singleton (hexDigit (c.toNat / 16)) ++
      String.singleton (hexDigit (c.toNat % 16))
  else String.singleton c

/-- `JSON.stringify` applied to a string: quote and escape. -/
def quoteJson (s : String) : String :=
  "\"" ++ String.join (s.data.map escapeChar) ++ "\""

mutual
/-- JavaScript `JSON.stringify`. Returns `none` exactly where the builtin
returns `undefined`, namely on a top-level `undefined`. -/
def stringify : JSVal → Option String
  | .undefined => none
  | .null => some "null"
  | .bool b => some (if b then "true" else "false")
  | .num n => some (toString n)
  | .str s => some (quoteJson s)
  | .arr xs => some ("[" ++ String.intercalate "," (stringifyList xs) ++ "]")
  | .obj fs => some ("\x7b" ++ String.intercalate "," (stringifyFields fs) ++ "\x7d")

/-- Array elements rendered by `JSON.stringify`; an `undefined` element renders
as `null`. -/
def stringifyList : JSList → List String
  | .nil => []
  | .cons v rest => (stringify v).getD "null" :: stringifyList rest

/-- Object entries rendered by `JSON.stringify` as `key:value` strings; entries
whose value stringifies to `undefined` are dropped. -/
def stringifyFields : JSFields → List String
  | .nil => []
  | .cons k v rest =>
    match stringify v with
    | none => stringifyFields rest
    | some s => (quoteJson k ++ ":" ++ s) :: stringifyFields rest
end

/-- A raw observation row as returned by `SessionStore.getObservationsByIds`.
The store implementation is not among the sources, so, following the spec's
Raw Record shape, every field is an arbitrary JS value: collection fields may
arrive structured or pre-serialized, optional fields may be absent
(`undefined`) or `null`. -/
structure Observation where
  id : JSVal
  memory_session_id : JSVal
  project : JSVal
  type : JSVal
  title : JSVal
  subtitle : JSVal
  facts : JSVal
  narrative : JSVal
  concepts : JSVal
  files_read : JSVal
  files_modified : JSVal
  prompt_number : JSVal
  discovery_tokens : JSVal
  created_at : JSVal
  created_at_epoch : JSVal
deriving DecidableEq

/-- The Normalized Document: the `StoredObservation`-shaped object literal the
handler builds for `ChromaSync.syncStoredObservations`. -/
structure StoredObservation where
  id : JSVal
  memory_session_id : JSVal
  project : JSVal
  text : JSVal
  type : JSVal
  title : JSVal
  subtitle : JSVal
  facts : JSVal
  narrative : JSVal
  concepts : JSVal
  files_read : JSVal
  files_modified : JSVal
  prompt_number : JSVal
  discovery_tokens : JSVal
  created_at : JSVal
  created_at_epoch : JSVal
deriving DecidableEq

/-- One collection field of the object literal:
`typeof v === 'string' ? v : JSON.stringify(v || [])`. Were `JSON.stringify`
to return `undefined`, the field would hold `undefined`. -/
def normalizeCollection (v : JSVal) : JSVal :=
  if v.isString then v
  else
    match stringify (jsOr v (.arr .nil)) with
    | some s => .str s
    | none => .undefined

/-- The `observations.map(obs => (...))` body building a StoredObservation
from a raw row (SyncRoutes.ts lines 55-72). -/
def convertObservation (obs : Observation) : StoredObservation where
  id := obs.id
  memory_session_id := obs.memory_session_id
  project := obs.project
  text := .null
  type := obs.type
  title := obs.title
  subtitle := obs.subtitle
  facts := normalizeCollection obs.facts
  narrative := obs.narrative
  concepts := normalizeCollection obs.concepts
  files_read := normalizeCollection obs.files_read
  files_modified := normalizeCollection obs.files_modified
  prompt_number := jsOr obs.prompt_number (.num 0)
  discovery_tokens := jsOr obs.discovery_tokens (.num 0)
  created_at := obs.created_at
  created_at_epoch := obs.created_at_epoch

/-- Outcome of a call to `SessionStore.getObservationsByIds(ids, opts)`: the
returned rows, or the message of a thrown error. The options argument is the
constant empty object and is omitted. -/
inductive StoreResult where
  | ok (observations : List Observation)
  | err (msg : String)
deriving DecidableEq

/-- Outcome of a call to `ChromaSync.syncStoredObservations`: the reported
count of embedded documents, or the message of a thrown error. -/
inductive ChromaResult where
  | ok (embeddedCount : Int)
  | err (msg : String)
deriving DecidableEq

/-- The two injected collaborators, as oracles mapping a call's argument to
its outcome. -/
structure Env where
  getObservationsByIds : JSVal → StoreResult
  syncStoredObservations : List StoredObservation → ChromaResult

/-- The collaborator invocations one request performed, with their arguments,
in order. No other effect is available to the handler. -/
structure Trace where
  storeCalls : List JSVal
  chromaCalls : List (List StoredObservation)
deriving DecidableEq

/-- The structured result of one request. Modelled from the spec: the
`BaseRouteHandler` helpers are not among the sources; per the spec,
`badRequest` renders an InvalidInput bad-request-class result and
`serverError` renders a failure result carrying a message, while `res.json`
with `success: true` renders a success with a count and an optional message. -/
inductive Response where
  | badRequest (msg : String)
  | success (embeddedCount : Int) (message : Option String)
  | failure (msg : String)
deriving DecidableEq

/-- The `handleSyncObservations` request handler (SyncRoutes.ts lines 35-84):
validate `ids`, bulk-fetch rows, convert them, delegate to Chroma, respond;
thrown collaborator errors are caught and rendered as failure results. -/
def handleSyncObservations (env : Env) (body : JSVal) : Response × Trace :=
  let ids := jsGet body "ids"
  if !ids.truthy || !ids.isArray || ids.jsLength == 0 then
    (.badRequest "ids array is required", ⟨[], []⟩)
  else
    match env.getObservationsByIds ids with
    | .err m => (.failure ("Sync failed: " ++ m), ⟨[ids], []⟩)
    | .ok observations =>
      if observations.length == 0 then
        (.success 0 (some "No observations found for given IDs"), ⟨[ids], []⟩)
      else
        let storedObservations := observations.map convertObservation
        match env.syncStoredObservations storedObservations with
        | .err m => (.failure ("Sync failed: " ++ m), ⟨[ids], [storedObservations]⟩)
        | .ok embeddedCount =>
          (.success embeddedCount none, ⟨[ids], [storedObservations]⟩)

/-- An observation row with every field absent, for concrete instantiations. -/
def blankObservation : Observation where
  id := .undefined
  memory_session_id := .undefined
  project := .undefined
  type := .undefined
  title := .undefined
  subtitle := .undefined
  facts := .undefined
  narrative := .undefined
  concepts := .undefined
  files_read := .undefined
  files_modified := .undefined
  prompt_number := .undefined
  discovery_tokens := .undefined
  created_at := .undefined
  created_at_epoch := .undefined

/-- A store that returns the given rows for every lookup and a Chroma client
that reports the given count for every batch. -/
def envConst (observations : List Observation) (count : Int) : Env where
  getObservationsByIds := fun _ => .ok observations
  syncStoredObservations := fun _ => .ok count

/-- A store whose lookup always throws with the given message. -/
def envStoreFail (msg : String) : Env where
  getObservationsByIds := fun _ => .err msg
  syncStoredObservations := fun _ => .ok 0

/-- A request body carrying the single id 1. -/
def bodyIdsOne : JSVal := .obj (.cons "ids" (.arr (.cons (.num 1) .nil)) .nil)

/-- An ids array whose elements are not well-formed ids: a non-numeric value,
a negative number, and a duplicated id. -/
def weirdIds : JSList :=
  .cons (.str "x") (.cons (.num (-1)) (.cons (.num 2) (.cons (.num 2) .nil)))

/-- A request body carrying the ill-formed ids array. -/
def bodyWeird : JSVal := .obj (.cons "ids" (.arr weirdIds) .nil)

/-- What normalization guarantees for one collection field, relating the raw
value to the stored one: the output is always text; pre-serialized text passes
through unchanged; an absent or null value yields the empty-array text; a
structured array yields its JSON-array text. -/
def collectionFieldSpec (v out : JSVal) : Prop :=
  (∃ s, out = JSVal.str s) ∧
  (∀ s, v = JSVal.str s → out = JSVal.str s) ∧
  ((v = JSVal.undefined ∨ v = JSVal.null) → out = JSVal.str "[]") ∧
  (∀ xs, v = JSVal.arr xs →
    out = JSVal.str ("[" ++ String.intercalate "," (stringifyList xs) ++ "]"))

theorem stringify_isSome (v : JSVal) (h : v ≠ .undefined) : ∃ s, stringify v = some s := by
  cases v with
  | undefined => exact absurd rfl h
  | null => exact ⟨_, rfl⟩
  | bool b => exact ⟨_, rfl⟩
  | num n => exact ⟨_, rfl⟩
  | str s => exact ⟨_, rfl⟩
  | arr xs => exact ⟨_, rfl⟩
  | obj fs => exact ⟨_, rfl⟩

theorem normalizeCollection_str (v : JSVal) : ∃ s, normalizeCollection v = JSVal.str s := by
  cases v with
  | str s => exact ⟨s, rfl⟩
  | undefined => exact ⟨"[]", rfl⟩
  | null => exact ⟨"[]", rfl⟩
  | bool b =>
    cases b with
    | false => exact ⟨"[]", rfl⟩
    | true => exact ⟨"true", rfl⟩
  | num n =>
    by_cases h : n = 0
    · subst h; exact ⟨"[]", rfl⟩
    · refine ⟨toString n, ?_⟩
      simp [normalizeCollection, JSVal.isString, jsOr, JSVal.truthy, h, stringify]
  | arr xs => exact ⟨_, rfl⟩
  | obj fs => exact ⟨_, rfl⟩

theorem collectionFieldSpec_normalize (v : JSVal) :
    collectionFieldSpec v (normalizeCollection v) := by
  refine ⟨normalizeCollection_str v, ?_, ?_, ?_⟩
  · intro s h; subst h; rfl
  · intro h
    rcases h with h | h <;> subst h <;> rfl
  · intro xs h; subst h; rfl

theorem JSList.length_ne_zero (xs : JSList) (h : xs ≠ .nil) :
    (xs.length == 0) = false := by
  cases xs with
  | nil => exact absurd rfl h
  | cons v rest =>
    simp only [JSList.length, beq_eq_false_iff_ne, ne_eq]
    omega

/-- After validation succeeds on a non-empty `ids` array, the handler is the
fetch/convert/delegate pipeline with that very array passed to the store. -/
theorem handle_valid (env : Env) (body : JSVal) (xs : JSList)
    (hne : xs ≠ JSList.nil) (hids : jsGet body "ids" = JSVal.arr xs) :
    handleSyncObservations env body =
      match env.getObservationsByIds (JSVal.arr xs) with
      | .err m => (.failure ("Sync failed: " ++ m), ⟨[JSVal.arr xs], []⟩)
      | .ok observations =>
        if observations.length == 0 then
          (.success 0 (some "No observations found for given IDs"),
            ⟨[JSVal.arr xs], []⟩)
        else
          match env.syncStoredObservations (observations.map convertObservation) with
          | .err m => (.failure ("Sync failed: " ++ m),
              ⟨[JSVal.arr xs], [observations.map convertObservation]⟩)
          | .ok embeddedCount => (.success embeddedCount none,
              ⟨[JSVal.arr xs], [observations.map convertObservation]⟩) := by
  unfold handleSyncObservations
  rw [hids]
  simp only [JSVal.truthy, JSVal.isArray, JSVal.jsLength,
    JSList.length_ne_zero xs hne, Bool.not_true, Bool.false_or, Bool.or_false,
    Bool.or_self, if_false]
  rw [if_neg Bool.false_ne_true]

/-- A failing bulk lookup is caught and rendered as a failure; Chroma is never
called. -/
theorem handle_store_err (env : Env) (body : JSVal) (xs : JSList) (m : String)
    (hne : xs ≠ JSList.nil) (hids : jsGet body "ids" = JSVal.arr xs)
    (hstore : env.getObservationsByIds (JSVal.arr xs) = .err m) :
    handleSyncObservations env body
      = (.failure ("Sync failed: " ++ m), ⟨[JSVal.arr xs], []⟩) := by
  rw [handle_valid env body xs hne hids, hstore]

/-- A lookup returning no rows yields the zero-count success; Chroma is never
called. -/
theorem handle_store_nil (env : Env) (body : JSVal) (xs : JSList)
    (hne : xs ≠ JSList.nil) (hids : jsGet body "ids" = JSVal.arr xs)
    (hstore : env.getObservationsByIds (JSVal.arr xs) = .ok []) :
    handleSyncObservations env body
      = (.success 0 (some "No observations found for given IDs"),
          ⟨[JSVal.arr xs], []⟩) := by
  rw [handle_valid env body xs hne hids, hstore]
  rfl

/-- With rows fetched and Chroma reporting a count, the handler succeeds with
that very count. -/
theorem handle_chroma_ok (env : Env) (body : JSVal) (xs : JSList)
    (observations : List Observation) (n : Int)
    (hne : xs ≠ JSList.nil) (hids : jsGet body "ids" = JSVal.arr xs)
    (hstore : env.getObservationsByIds (JSVal.arr xs) = .ok observations)
    (hobs : observations ≠ [])
    (hchroma : env.syncStoredObservations (observations.map convertObservation)
      = .ok n) :
    handleSyncObservations env body
      = (.success n none,
          ⟨[JSVal.arr xs], [observations.map convertObservation]⟩) := by
  rw [handle_valid env body xs hne hids, hstore]
  have hz : (observations.length == 0) = false := by
    simp only [beq_eq_false_iff_ne, ne_eq]
    exact fun h => hobs (List.length_eq_zero.mp h)
  simp only [hz, if_false, Bool.false_eq_true, hchroma]

/-- With rows fetched and the Chroma call throwing, the handler is a failure
carrying the message, after one store call and one Chroma call. -/
theorem handle_chroma_err (env : Env) (body : JSVal) (xs : JSList)
    (observations : List Observation) (m : String)
    (hne : xs ≠ JSList.nil) (hids : jsGet body "ids" = JSVal.arr xs)
    (hstore : env.getObservationsByIds (JSVal.arr xs) = .ok observations)
    (hobs : observations ≠ [])
    (hchroma : env.syncStoredObservations (observations.map convertObservation)
      = .err m) :
    handleSyncObservations env body
      = (.failure ("Sync failed: " ++ m),
          ⟨[JSVal.arr xs], [observations.map convertObservation]⟩) := by
  rw [handle_valid env body xs hne hids, hstore]
  have hz : (observations.length == 0) = false := by
    simp only [beq_eq_false_iff_ne, ne_eq]
    exact fun h => hobs (List.length_eq_zero.mp h)
  simp only [hz, if_false, Bool.false_eq_true, hchroma]

/-- C1 (amended): for every fetched record, each of the four collection fields
of the Normalized Document is text; pre-serialized text passes through
unchanged; an absent or null source yields the empty-array text; a structured
array source yields its JSON-array text. A structured non-array source is
serialized to its JSON text, which is not array text, so the original claim's
"otherwise a JSON-array text" holds only for array or absent sources. -/
theorem C1_collection_fields (obs : Observation) :
    collectionFieldSpec obs.facts (convertObservation obs).facts ∧
    collectionFieldSpec obs.concepts (convertObservation obs).concepts ∧
    collectionFieldSpec obs.files_read (convertObservation obs).files_read ∧
    collectionFieldSpec obs.files_modified (convertObservation obs).files_modified :=
  ⟨collectionFieldSpec_normalize obs.facts,
   collectionFieldSpec_normalize obs.concepts,
   collectionFieldSpec_normalize obs.files_read,
   collectionFieldSpec_normalize obs.files_modified⟩

/-- C1 witness: a record with all four collection fields absent yields the
empty-array text everywhere. -/
theorem C1_collection_fields_closed :
    (convertObservation blankObservation).facts = JSVal.str "[]" ∧
    (convertObservation blankObservation).concepts = JSVal.str "[]" ∧
    (convertObservation blankObservation).files_read = JSVal.str "[]" ∧
    (convertObservation blankObservation).files_modified = JSVal.str "[]" :=
  ⟨((C1_collection_fields blankObservation).1).2.2.1 (Or.inl rfl),
   ((C1_collection_fields blankObservation).2.1).2.2.1 (Or.inl rfl),
   ((C1_collection_fields blankObservation).2.2.1).2.2.1 (Or.inl rfl),
   ((C1_collection_fields blankObservation).2.2.2).2.2.1 (Or.inl rfl)⟩

/-- C1 counterexample: a record whose `facts` arrives as a structured object
(permitted by the Raw Record shape) is serialized to JSON object text, which
is not the serialization of any array, refuting "otherwise it is serialized to
a JSON-array text". -/
theorem C1_counterexample :
    (convertObservation { blankObservation with facts := JSVal.obj .nil }).facts
        = JSVal.str "\x7b\x7d"
      ∧ ¬ ∃ xs : JSList, stringify (JSVal.arr xs) = some "\x7b\x7d" := by
  refine ⟨by decide, ?_⟩
  rintro ⟨xs, h⟩
  have h2 : some ("[" ++ String.intercalate "," (stringifyList xs) ++ "]")
      = some "\x7b\x7d" := h
  have h3 := Option.some.inj h2
  have hd := congrArg String.data h3
  rw [String.data_append, String.data_append] at hd
  have hd2 : '[' :: ((String.intercalate "," (stringifyList xs)).data ++ [']'])
      = ['\x7b', '\x7d'] := hd
  injection hd2 with h4 h5
  exact absurd h4 (by decide)

/-- C2: a missing, non-array, or empty `ids` value is rejected with the
bad-request result and neither the store nor Chroma is invoked. -/
theorem C2_invalid_input (env : Env) (body : JSVal)
    (h : jsGet body "ids" = JSVal.undefined
      ∨ (jsGet body "ids").isArray = false
      ∨ jsGet body "ids" = JSVal.arr .nil) :
    handleSyncObservations env body
      = (.badRequest "ids array is required", ⟨[], []⟩) := by
  unfold handleSyncObservations
  rcases h with h | h | h
  · simp [h, JSVal.truthy]
  · simp [h]
  · simp [h, JSVal.truthy, JSVal.isArray, JSVal.jsLength, JSList.length]

/-- C2 witness: a body without an `ids` key is rejected and no collaborator is
called. -/
theorem C2_invalid_input_closed :
    handleSyncObservations (envConst [] 0) (JSVal.obj .nil)
      = (.badRequest "ids array is required", ⟨[], []⟩) :=
  C2_invalid_input (envConst [] 0) (JSVal.obj .nil) (Or.inl rfl)

/-- C3 (amended): every invocation that passes validation performs exactly one
store read, with the `ids` array as its argument, and at most one Chroma
write; the write happens exactly when the read succeeds with at least one
row. -/
theorem C3_effects (env : Env) (body : JSVal) (xs : JSList)
    (hne : xs ≠ JSList.nil) (hids : jsGet body "ids" = JSVal.arr xs) :
    (handleSyncObservations env body).2.storeCalls = [JSVal.arr xs] ∧
    (handleSyncObservations env body).2.chromaCalls.length ≤ 1 ∧
    (∀ observations, env.getObservationsByIds (JSVal.arr xs) = .ok observations →
      observations ≠ [] →
      (handleSyncObservations env body).2.chromaCalls
        = [observations.map convertObservation]) := by
  cases hstore : env.getObservationsByIds (JSVal.arr xs) with
  | err m =>
    rw [handle_store_err env body xs m hne hids hstore]
    refine ⟨rfl, by simp, ?_⟩
    intro observations hok
    exact absurd hok (by simp)
  | ok observations =>
    cases observations with
    | nil =>
      rw [handle_store_nil env body xs hne hids hstore]
      refine ⟨rfl, by simp, ?_⟩
      intro obs2 hok hne2
      injection hok with h
      exact absurd h.symm hne2
    | cons o rest =>
      cases hchroma : env.syncStoredObservations ((o :: rest).map convertObservation) with
      | err m =>
        rw [handle_chroma_err env body xs (o :: rest) m hne hids hstore
          (List.cons_ne_nil o rest) hchroma]
        refine ⟨rfl, by simp, ?_⟩
        intro obs2 hok hne2
        injection hok with h
        subst h
        rfl
      | ok n =>
        rw [handle_chroma_ok env body xs (o :: rest) n hne hids hstore
          (List.cons_ne_nil o rest) hchroma]
        refine ⟨rfl, by simp, ?_⟩
        intro obs2 hok hne2
        injection hok with h
        subst h
        rfl

/-- C3 witness: with one id, one fetched row and a successful Chroma call, the
trace records exactly one store call on the forwarded array and one Chroma
call. -/
theorem C3_effects_closed :
    (handleSyncObservations (envConst [blankObservation] 1) bodyIdsOne).2.storeCalls
        = [JSVal.arr (.cons (.num 1) .nil)]
      ∧ (handleSyncObservations (envConst [blankObservation] 1) bodyIdsOne).2.chromaCalls
        = [[convertObservation blankObservation]] :=
  ⟨(C3_effects (envConst [blankObservation] 1) bodyIdsOne
      (JSList.cons (.num 1) .nil) (by decide) (by decide)).1,
   (C3_effects (envConst [blankObservation] 1) bodyIdsOne
      (JSList.cons (.num 1) .nil) (by decide) (by decide)).2.2
      [blankObservation] rfl (by simp)⟩

/-- C3 counterexample: a validated request whose ids match no rows performs
one store read but no Chroma write, refuting "exactly one write/upsert-batch
call per invocation". -/
theorem C3_counterexample :
    (handleSyncObservations (envConst [] 0) bodyIdsOne).1
        = Response.success 0 (some "No observations found for given IDs")
      ∧ (handleSyncObservations (envConst [] 0) bodyIdsOne).2.storeCalls.length = 1
      ∧ (handleSyncObservations (envConst [] 0) bodyIdsOne).2.chromaCalls.length = 0 := by
  decide

/-- C4: the Raw-Record-to-Normalized-Document conversion is a pure total
function: for every combination of present, absent, structured, or
pre-serialized fields it produces a document, and every collection field of
that document is a genuine string — `JSON.stringify` never contributes
`undefined` because of the `|| []` guard. -/
theorem C4_conversion_total (obs : Observation) :
    ∃ d : StoredObservation, convertObservation obs = d
      ∧ (∃ s, d.facts = JSVal.str s)
      ∧ (∃ s, d.concepts = JSVal.str s)
      ∧ (∃ s, d.files_read = JSVal.str s)
      ∧ (∃ s, d.files_modified = JSVal.str s) :=
  ⟨convertObservation obs, rfl,
   normalizeCollection_str obs.facts,
   normalizeCollection_str obs.concepts,
   normalizeCollection_str obs.files_read,
   normalizeCollection_str obs.files_modified⟩

/-- C5: normalization does not double-encode: a structured `facts` list
`["a","b"]` becomes exactly the JSON-array text, and a `facts` field already
holding that text passes through unchanged. -/
theorem C5_no_double_encode (obs : Observation) :
    (obs.facts = JSVal.arr (.cons (.str "a") (.cons (.str "b") .nil)) →
      (convertObservation obs).facts = JSVal.str "[\"a\",\"b\"]") ∧
    (obs.facts = JSVal.str "[\"a\",\"b\"]" →
      (convertObservation obs).facts = JSVal.str "[\"a\",\"b\"]") := by
  have hf : (convertObservation obs).facts = normalizeCollection obs.facts := rfl
  constructor <;> intro h <;> rw [hf, h] <;> decide

/-- C5 witness: both the structured and the pre-serialized form of
`["a","b"]` yield the same serialized text. -/
theorem C5_no_double_encode_closed :
    (convertObservation { blankObservation with
        facts := JSVal.arr (.cons (.str "a") (.cons (.str "b") .nil)) }).facts
      = JSVal.str "[\"a\",\"b\"]"
    ∧ (convertObservation { blankObservation with
        facts := JSVal.str "[\"a\",\"b\"]" }).facts
      = JSVal.str "[\"a\",\"b\"]" :=
  ⟨(C5_no_double_encode { blankObservation with
      facts := JSVal.arr (.cons (.str "a") (.cons (.str "b") .nil)) }).1 rfl,
   (C5_no_double_encode { blankObservation with
      facts := JSVal.str "[\"a\",\"b\"]" }).2 rfl⟩

/-- C6: a valid non-empty ids list for which the store returns zero rows
yields a success with embeddedCount 0 and the explanatory message, and Chroma
is not invoked. -/
theorem C6_zero_records (env : Env) (body : JSVal) (xs : JSList)
    (hne : xs ≠ JSList.nil) (hids : jsGet body "ids" = JSVal.arr xs)
    (hstore : env.getObservationsByIds (JSVal.arr xs) = .ok []) :
    handleSyncObservations env body
      = (.success 0 (some "No observations found for given IDs"),
          ⟨[JSVal.arr xs], []⟩) :=
  handle_store_nil env body xs hne hids hstore

/-- C6 witness: a store knowing no rows yields the zero-count success for id
1, with one store call and no Chroma call. -/
theorem C6_zero_records_closed :
    handleSyncObservations (envConst [] 0) bodyIdsOne
      = (.success 0 (some "No observations found for given IDs"),
          ⟨[JSVal.arr (.cons (.num 1) .nil)], []⟩) :=
  C6_zero_records (envConst [] 0) bodyIdsOne (JSList.cons (.num 1) .nil)
    (by decide) (by decide) rfl

/-- C7: a throwing store lookup is converted into a failure result carrying
the underlying message — the handler still returns a structured response —
and Chroma is never invoked. -/
theorem C7_lookup_failure (env : Env) (body : JSVal) (xs : JSList) (m : String)
    (hne : xs ≠ JSList.nil) (hids : jsGet body "ids" = JSVal.arr xs)
    (hstore : env.getObservationsByIds (JSVal.arr xs) = .err m) :
    handleSyncObservations env body
      = (.failure ("Sync failed: " ++ m), ⟨[JSVal.arr xs], []⟩) :=
  handle_store_err env body xs m hne hids hstore

/-- C7 witness: a store that always throws yields the failure response with
the underlying message and no Chroma call. -/
theorem C7_lookup_failure_closed :
    handleSyncObservations (envStoreFail "database is locked") bodyIdsOne
      = (.failure "Sync failed: database is locked",
          ⟨[JSVal.arr (.cons (.num 1) .nil)], []⟩) :=
  C7_lookup_failure (envStoreFail "database is locked") bodyIdsOne
    (JSList.cons (.num 1) .nil) "database is locked" (by decide) (by decide) rfl

/-- C8: whatever count Chroma reports for a non-empty batch is returned
unchanged as a success — not treated as an error, not clamped to the number of
fetched records. -/
theorem C8_count_passthrough (env : Env) (body : JSVal) (xs : JSList)
    (observations : List Observation) (n : Int)
    (hne : xs ≠ JSList.nil) (hids : jsGet body "ids" = JSVal.arr xs)
    (hstore : env.getObservationsByIds (JSVal.arr xs) = .ok observations)
    (hobs : observations ≠ [])
    (hchroma : env.syncStoredObservations (observations.map convertObservation)
      = .ok n) :
    handleSyncObservations env body
      = (.success n none,
          ⟨[JSVal.arr xs], [observations.map convertObservation]⟩) :=
  handle_chroma_ok env body xs observations n hne hids hstore hobs hchroma

/-- C8 witness: five fetched records and a Chroma report of 3 yield success
with embeddedCount 3. -/
theorem C8_count_passthrough_closed :
    handleSyncObservations (envConst (List.replicate 5 blankObservation) 3) bodyIdsOne
      = (.success 3 none,
          ⟨[JSVal.arr (.cons (.num 1) .nil)],
            [(List.replicate 5 blankObservation).map convertObservation]⟩) :=
  C8_count_passthrough (envConst (List.replicate 5 blankObservation) 3) bodyIdsOne
    (JSList.cons (.num 1) .nil) (List.replicate 5 blankObservation) 3
    (by decide) (by decide) rfl (by decide) rfl

/-- C9: when `prompt_number` and `discovery_tokens` are both absent, the
Normalized Document sets both to 0. -/
theorem C9_numeric_defaults (obs : Observation)
    (hp : obs.prompt_number = JSVal.undefined)
    (hd : obs.discovery_tokens = JSVal.undefined) :
    (convertObservation obs).prompt_number = JSVal.num 0 ∧
    (convertObservation obs).discovery_tokens = JSVal.num 0 := by
  have h1 : (convertObservation obs).prompt_number
      = jsOr obs.prompt_number (.num 0) := rfl
  have h2 : (convertObservation obs).discovery_tokens
      = jsOr obs.discovery_tokens (.num 0) := rfl
  rw [h1, h2, hp, hd]
  exact ⟨rfl, rfl⟩

/-- C9 witness: the all-absent record gets 0 for both numeric fields. -/
theorem C9_numeric_defaults_closed :
    (convertObservation blankObservation).prompt_number = JSVal.num 0 ∧
    (convertObservation blankObservation).discovery_tokens = JSVal.num 0 :=
  C9_numeric_defaults blankObservation rfl rfl

/-- C10: validation looks only at `ids` being a non-empty array, never at its
elements: every non-empty array — whatever its elements — passes validation,
and the very same array value is the argument of the single store lookup. -/
theorem C10_ids_forwarded (env : Env) (body : JSVal) (xs : JSList)
    (hne : xs ≠ JSList.nil) (hids : jsGet body "ids" = JSVal.arr xs) :
    (∀ m, (handleSyncObservations env body).1 ≠ Response.badRequest m) ∧
    (handleSyncObservations env body).2.storeCalls = [JSVal.arr xs] := by
  cases hstore : env.getObservationsByIds (JSVal.arr xs) with
  | err m' =>
    rw [handle_store_err env body xs m' hne hids hstore]
    exact ⟨fun m h => by simp at h, rfl⟩
  | ok observations =>
    cases observations with
    | nil =>
      rw [handle_store_nil env body xs hne hids hstore]
      exact ⟨fun m h => by simp at h, rfl⟩
    | cons o rest =>
      cases hchroma : env.syncStoredObservations ((o :: rest).map convertObservation) with
      | err m' =>
        rw [handle_chroma_err env body xs (o :: rest) m' hne hids hstore
          (List.cons_ne_nil o rest) hchroma]
        exact ⟨fun m h => by simp at h, rfl⟩
      | ok n =>
        rw [handle_chroma_ok env body xs (o :: rest) n hne hids hstore
          (List.cons_ne_nil o rest) hchroma]
        exact ⟨fun m h => by simp at h, rfl⟩

/-- C10 witness: an ids array holding a string, a negative number and a
duplicate passes validation and reaches the store verbatim. -/
theorem C10_ids_forwarded_closed :
    (handleSyncObservations (envConst [] 0) bodyWeird).2.storeCalls
      = [JSVal.arr weirdIds] :=
  (C10_ids_forwarded (envConst [] 0) bodyWeird weirdIds (by decide) (by decide)).2
